import Mathlib

/-!
Shallow embedding of the heart-disease repository (victor-iyi/heart-disease):
the model registry and prediction dispatch (`app/backend/inference.py`), the
estimator base class (`heart_disease/base.py`), the model catalogue
(`heart_disease/models.py`), the training script (`heart_disease/train.py`),
the CSV data iterator (`heart_disease/data.py`), the request schemas
(`app/schemas/model.py`), the persistence layer (`app/database/query.py`),
and the password helpers (`app/backend/user.py`).

Python integers are embedded as `Int`, floating-point feature values as `Rat`
(every operation the code performs on them is exact), fallible Python code as
`Except PyErr`, and `None`-or-value as `Option`.
-/

namespace HeartDisease

/-- Python exception classes raised by the code paths embedded here. -/
inductive PyErr where
  | typeError
  | valueError
  | keyError
  | fileNotFoundError
  | importError
  | attributeError
  | stopIteration
deriving DecidableEq, Repr

/-- Result of `np.array` applied to a Python object: a sequence (list/tuple)
yields a one-dimensional numeric array, while an iterable that does not
implement the sequence protocol — such as a `dict_values` view — yields a
zero-dimensional object array wrapping the object itself. -/
inductive NpArray where
  /-- One-dimensional numeric array with the given entries. -/
  | numeric (xs : List Rat)
  /-- Zero-dimensional object array wrapping a `dict_values` view whose
  underlying values are the given list. -/
  | objectScalar (vals : List Rat)
deriving DecidableEq, Repr

/-- Abstract scikit-learn estimator as used by `heart_disease/base.py`:
`predict` returns a prediction array, `predict_proba` returns per-class
confidences when the algorithm supports it (`none` otherwise), mirroring
`Model.predict` and `Model.predict_probability`. -/
structure Estimator where
  /-- `Model._name`. -/
  name : String
  /-- `self._model.predict(inputs)`. -/
  predictFn : NpArray → List Rat
  /-- `self._model.predict_proba(inputs)`, absent when the estimator has no
  such attribute. -/
  probaFn : Option (NpArray → List Rat)

/-- File system abstraction: a path maps to the estimator serialized at that
path when a regular file exists there, and to `none` otherwise.
`os.path.isfile(path)` is `(fs path).isSome`. -/
def FileSys : Type := String → Option Estimator

/-- `os.path.isfile`. -/
def isfile (fs : FileSys) (path : String) : Bool :=
  (fs path).isSome

/-- `joblib.load(path)`: deserializes the estimator stored at `path`; opening
a path with no file raises `FileNotFoundError`. -/
def joblib_load (fs : FileSys) (path : String) : Except PyErr Estimator :=
  match fs path with
  | some m => Except.ok m
  | none => Except.error PyErr.fileNotFoundError

/-- `Model.load_model` (heart_disease/base.py lines 340-357), exactly as
written: `path = path or self._path`; then `if os.path.isfile(path): raise
FileNotFoundError(...)`; then `self._model = joblib.load(path)`. Note the
guard raises when the file DOES exist, the opposite of its docstring. -/
def load_model (fs : FileSys) (path : String) : Except PyErr Estimator :=
  if isfile fs path then Except.error PyErr.fileNotFoundError
  else joblib_load fs path

/-- Module-level attribute names bound in `heart_disease/models.py`: its
imports, the four classifier classes, the private mapping `_MODELS`, the enum
`Models`, and `__all__`. The module defines no attribute named `MODELS`. -/
def modelsModuleNames : List String :=
  ["Enum", "Any", "ForwardRef", "Dict", "List", "Type", "Union",
   "naive_bayes", "neighbors", "svm", "tree", "base", "__all__",
   "SupportVectorMachine", "KNearestNeighbors", "NaiveBayes", "DecisionTree",
   "_MODELS", "Models"]

/-- Attribute access `models.<attr>` on module `heart_disease.models`:
a missing attribute raises `AttributeError`. -/
def getattrModels (attr : String) : Except PyErr Unit :=
  if attr ∈ modelsModuleNames then Except.ok () else Except.error PyErr.attributeError

/-- `str.removesuffix`: drops `suf` from the end of `s` when `s` ends with it,
otherwise returns `s` unchanged. -/
def removesuffix (s suf : String) : String :=
  if s.endsWith suf then s.dropRight suf.length else s

/-- `SavedModel.__init__` (app/backend/inference.py lines 37-58): for each
file of the directory listing, build the path, take the filename with its
`.joblib` suffix removed as the model name, look up `models.MODELS[model_name]`
(an attribute access on `heart_disease.models`), instantiate it, call
`load_model(path)` on it, and record the name-to-estimator pair. Any raised
exception propagates out of the constructor. -/
def savedModel_init (fs : FileSys) (model_dir : String) (listing : List String) :
    Except PyErr (List (String × Estimator)) :=
  listing.foldlM
    (fun acc model_file => do
      let path := model_dir ++ "/" ++ model_file
      let model_name := removesuffix model_file ".joblib"
      let _ ← getattrModels "MODELS"
      let m ← load_model fs path
      pure (acc ++ [(model_name, m)]))
    []

/-- Formatted prediction output built by `SavedModel.predict`
(app/backend/inference.py lines 124-133): model name, boolean predictions,
and the confidence as a percentage (or `None`). -/
structure PredOut where
  model_name : String
  has_heart_disease : List Bool
  confidence_score : Option Rat
deriving DecidableEq, Repr

/-- A call to the Python builtin `any` with `argc` positional arguments:
`any` accepts exactly one argument (an iterable) and raises `TypeError` at
any other arity, before any truthiness is inspected. With one argument it
returns whether some element of the iterable is truthy. -/
def anyArity (argc : Nat) (iterTruthy : List Bool) : Except PyErr Bool :=
  if argc = 1 then Except.ok (iterTruthy.any id) else Except.error PyErr.typeError

/-- Python `max` over a list: raises `ValueError` on an empty sequence. -/
def pyMax (xs : List Rat) : Except PyErr Rat :=
  match xs with
  | [] => Except.error PyErr.valueError
  | x :: rest => Except.ok (rest.foldl max x)

/-- `np.cast[bool]` applied to a prediction array: nonzero entries become
`True`. -/
def npCastBool (xs : List Rat) : List Bool :=
  xs.map (fun x => decide (x ≠ 0))

/-- Dictionary lookup `self._models[name]` on the name-to-estimator registry,
`none` when the key is absent (Python raises `KeyError`). -/
def lookupReg (reg : List (String × Estimator)) (name : String) : Option Estimator :=
  (reg.find? (fun p => p.1 = name)).map Prod.snd

/-- `Model.__call__` (heart_disease/base.py lines 83-119): pair of
`self.predict(inputs)` and `self.predict_probability(inputs)` (the latter is
`None` when the estimator lacks `predict_proba`). -/
def modelCall (m : Estimator) (inputs : NpArray) : List Rat × Option (List Rat) :=
  (m.predictFn inputs, m.probaFn.map (fun f => f inputs))

/-- `SavedModel.predict` (app/backend/inference.py lines 80-135), exactly as
written. Its first statement is `if not any(name, model): raise ValueError`,
a two-argument call to the builtin `any`; when that call returns, the code
takes `model or self._models[name]` (re-raising `KeyError` on a missing
name), calls the model, casts the prediction to booleans, and converts the
confidence to a percentage via `max(confidence) * 100.0`. -/
def predict (reg : List (String × Estimator)) (inputs : NpArray)
    (name : Option String) (model : Option Estimator) : Except PyErr PredOut :=
  match anyArity 2 [name.isSome, model.isSome] with
  | Except.error e => Except.error e
  | Except.ok cond =>
    if cond = false then Except.error PyErr.valueError
    else
      match (match model with
             | some m => Except.ok m
             | none =>
               match name.bind (lookupReg reg) with
               | some m => Except.ok m
               | none => Except.error PyErr.keyError) with
      | Except.error e => Except.error e
      | Except.ok m =>
        let result := modelCall m inputs
        let prediction := npCastBool result.1
        match result.2 with
        | none => Except.ok ⟨m.name, prediction, none⟩
        | some c =>
          match pyMax c with
          | Except.error e => Except.error e
          | Except.ok mx => Except.ok ⟨m.name, prediction, some (mx * 100)⟩

/-- The `as_completed` loop of `SavedModel.predict_all`
(app/backend/inference.py lines 160-164): each future result is appended to
the result list; a future whose computation raised is logged
(`Log.exception`) and skipped. -/
def gatherResults : List (Except PyErr PredOut) → List PredOut
  | [] => []
  | Except.ok r :: rest => r :: gatherResults rest
  | Except.error _ :: rest => gatherResults rest

/-- The futures submitted by `SavedModel.predict_all`
(app/backend/inference.py lines 152-158): one per registered model, each
computing `self.predict(inputs=inputs, model=model)`, listed in completion
order (taken here as submission order). -/
def futureOutcomes (reg : List (String × Estimator)) (inputs : NpArray) :
    List (Except PyErr PredOut) :=
  (reg.map Prod.snd).map (fun m => predict reg inputs none (some m))

/-- `SavedModel.predict_all` (app/backend/inference.py lines 137-176):
fan-out over all registered models followed by the catch-and-log gather
loop. -/
def predict_all (reg : List (String × Estimator)) (inputs : NpArray) : List PredOut :=
  gatherResults (futureOutcomes reg inputs)

/-- Demonstration estimator standing for a trained Gaussian Naive Bayes. -/
def nbEstimator : Estimator :=
  { name := "Naive Bayes"
    predictFn := fun _ => [1]
    probaFn := some (fun _ => [1/10, 9/10]) }

/-- Demonstration file system: exactly one saved-model file exists. -/
def demoFS : FileSys :=
  fun p => if p = "data/trained_model/Naive Bayes.joblib" then some nbEstimator else none

/-- The four classifier classes of `heart_disease/models.py`. -/
inductive ModelClass where
  | supportVectorMachine
  | kNearestNeighbors
  | naiveBayes
  | decisionTree
deriving DecidableEq, Repr

/-- The name-to-class mapping `_MODELS` (heart_disease/models.py lines
80-86), in source order. -/
def _MODELS : List (String × ModelClass) :=
  [("Support Vector Machine", ModelClass.supportVectorMachine),
   ("K-Nearest Neighbors", ModelClass.kNearestNeighbors),
   ("Naive Bayes", ModelClass.naiveBayes),
   ("Decision Tree", ModelClass.decisionTree)]

/-- The statement `from heart_disease.models import <attr>` executed when
`heart_disease/train.py` is imported: resolves `attr` among the module
attributes of `heart_disease.models`, raising `ImportError` when absent. -/
def from_models_import (attr : String) : Except PyErr Unit :=
  if attr ∈ modelsModuleNames then Except.ok () else Except.error PyErr.importError

/-- Method and property names defined on class `Model` in
`heart_disease/base.py` (plus the universal object attributes it inherits
that the training code could reach). The class defines `train`, not `fit`. -/
def modelMethodNames : List String :=
  ["__init__", "__repr__", "__str__", "__call__", "train", "test", "predict",
   "predict_probability", "metrics", "confusion_matrix", "save_model",
   "load_model", "save", "load", "model", "name", "path"]

/-- Attribute access `model.<attr>` on a `base.Model` instance: a missing
attribute raises `AttributeError`. -/
def getattrModel (attr : String) : Except PyErr Unit :=
  if attr ∈ modelMethodNames then Except.ok () else Except.error PyErr.attributeError

/-- Dictionary lookup `MODELS[model_name]` over the model-class mapping. -/
def lookupClass (name : String) : Option ModelClass :=
  (_MODELS.find? (fun p => p.1 = name)).map Prod.snd

/-- `_train_and_save_model` (heart_disease/train.py lines 67-81), granting it
the `_MODELS` mapping its import intended to fetch: looks up the model class
by name, then executes `model.fit(X_train, y_train)` — an attribute access
for `fit` on a `base.Model` instance — before `model.save_model(path)`. -/
def _train_and_save_model (model_name : String) : Except PyErr Unit := do
  let _ ← (match lookupClass model_name with
           | some _ => Except.ok ()
           | none => Except.error PyErr.keyError)
  let _ ← getattrModel "fit"
  let _ ← getattrModel "save_model"
  Except.ok ()

/-- Running `heart_disease/train.py` on a CSV file: importing the module
first executes `from heart_disease.models import MODELS`; only if that
succeeds does `train_all(filename)` run, which maps
`_train_and_save_model` over the model names. -/
def run_training_script (filename : String) : Except PyErr (List Unit) := do
  let _ ← from_models_import "MODELS"
  let _ := filename
  (_MODELS.map Prod.fst).mapM _train_and_save_model

/-- A JSON body offered for validation against the `Features` schema
(app/schemas/model.py lines 29-103): each of the 13 clinical fields is
present (`some`) or missing (`none`). -/
structure FeaturesJson where
  age : Option Int
  sex : Option Int
  cp : Option Int
  trestbps : Option Int
  chol : Option Int
  fbs : Option Int
  restecg : Option Int
  thalach : Option Int
  exang : Option Int
  oldpeak : Option Rat
  slope : Option Int
  ca : Option Int
  thal : Option Int
deriving DecidableEq, Repr

/-- A validated `Features` object: the 13 numeric clinical attributes in
declaration order (age, sex, cp, trestbps, chol, fbs, restecg, thalach,
exang, oldpeak, slope, ca, thal). `oldpeak` is the one float field. -/
structure Features where
  age : Int
  sex : Int
  cp : Int
  trestbps : Int
  chol : Int
  fbs : Int
  restecg : Int
  thalach : Int
  exang : Int
  oldpeak : Rat
  slope : Int
  ca : Int
  thal : Int
deriving DecidableEq, Repr

/-- Validation of one required integer field declared `Field(..., ge=lo)`:
the field must be present and at least `lo`. -/
def checkGe (v : Option Int) (lo : Int) : Option Int :=
  match v with
  | none => none
  | some x => if lo ≤ x then some x else none

/-- Validation of one required integer field declared
`Field(..., ge=lo, le=hi)`. -/
def checkRange (v : Option Int) (lo hi : Int) : Option Int :=
  match v with
  | none => none
  | some x => if lo ≤ x ∧ x ≤ hi then some x else none

/-- Validation of the one required float field declared `Field(..., ge=lo)`. -/
def checkGeQ (v : Option Rat) (lo : Rat) : Option Rat :=
  match v with
  | none => none
  | some x => if lo ≤ x then some x else none

/-- Pydantic validation of the `Features` schema (app/schemas/model.py lines
29-103): all 13 fields are required (`...`), with the declared bounds
age ≥ 0, sex ∈ [0,1], cp ∈ [0,3], trestbps ≥ 0, chol ≥ 0, fbs ∈ [0,1],
restecg ∈ [0,2], thalach ≥ 0, exang ∈ [0,1], oldpeak ≥ 0, slope ∈ [0,2],
ca ∈ [0,4], thal ∈ [0,3]. -/
def validateFeatures (j : FeaturesJson) : Option Features :=
  Option.bind (checkGe j.age 0) fun age =>
  Option.bind (checkRange j.sex 0 1) fun sex =>
  Option.bind (checkRange j.cp 0 3) fun cp =>
  Option.bind (checkGe j.trestbps 0) fun trestbps =>
  Option.bind (checkGe j.chol 0) fun chol =>
  Option.bind (checkRange j.fbs 0 1) fun fbs =>
  Option.bind (checkRange j.restecg 0 2) fun restecg =>
  Option.bind (checkGe j.thalach 0) fun thalach =>
  Option.bind (checkRange j.exang 0 1) fun exang =>
  Option.bind (checkGeQ j.oldpeak 0) fun oldpeak =>
  Option.bind (checkRange j.slope 0 2) fun slope =>
  Option.bind (checkRange j.ca 0 4) fun ca =>
  Option.bind (checkRange j.thal 0 3) fun thal =>
  some ⟨age, sex, cp, trestbps, chol, fbs, restecg, thalach, exang,
        oldpeak, slope, ca, thal⟩

/-- A JSON body offered for validation against `PredictionRequest`
(app/schemas/model.py lines 106-122): the `data` member may be present or
missing; `model_name` is `Optional[str]` defaulting to `None`, so a missing
member and an explicit `null` both embed as `none`. -/
structure PredictionRequestJson where
  data : Option FeaturesJson
  model_name : Option String
deriving DecidableEq, Repr

/-- A validated `PredictionRequest`. -/
structure PredictionRequest where
  data : Features
  model_name : Option String
deriving DecidableEq, Repr

/-- Pydantic validation of `PredictionRequest`: `data` is required and must
itself validate as `Features`; `model_name` is optional and unconstrained. -/
def validateRequest (j : PredictionRequestJson) : Option PredictionRequest :=
  Option.bind j.data fun d =>
  Option.bind (validateFeatures d) fun f =>
  some ⟨f, j.model_name⟩

/-- `Features.dict()`: the mapping of the 13 field names to their values, in
field declaration order. -/
def featuresDict (f : Features) : List (String × Rat) :=
  [("age", (f.age : Rat)), ("sex", (f.sex : Rat)), ("cp", (f.cp : Rat)),
   ("trestbps", (f.trestbps : Rat)), ("chol", (f.chol : Rat)),
   ("fbs", (f.fbs : Rat)), ("restecg", (f.restecg : Rat)),
   ("thalach", (f.thalach : Rat)), ("exang", (f.exang : Rat)),
   ("oldpeak", f.oldpeak), ("slope", (f.slope : Rat)),
   ("ca", (f.ca : Rat)), ("thal", (f.thal : Rat))]

/-- `np.array` applied to a Python object. A list or tuple is a sequence and
becomes a one-dimensional numeric array; a `dict_values` view supports
iteration but not the sequence protocol, so numpy wraps the view itself in a
zero-dimensional object array. The embedding distinguishes the two argument
shapes by which constructor is applied. -/
def np_array_ofList (xs : List Rat) : NpArray := NpArray.numeric xs

/-- `np.array` applied to a `dict_values` view (see `np_array_ofList`). -/
def np_array_ofDictValues (xs : List Rat) : NpArray := NpArray.objectScalar xs

/-- `SavedModel.data_to_array` (app/backend/inference.py lines 178-188),
exactly as written: `np.array(data.dict().values())` — the argument is the
`dict_values` view of the feature dictionary, not a list of its values. -/
def data_to_array (f : Features) : NpArray :=
  np_array_ofDictValues ((featuresDict f).map Prod.snd)

/-- Python truthiness of an `Optional[str]` value: `None` and the empty
string are falsy. -/
def pyTruthyStr (o : Option String) : Bool :=
  match o with
  | some s => decide (s ≠ "")
  | none => false

/-- `predict_heart_disease` (app/routers/predict.py lines 43-70) applied to a
validated request body: converts the body features via
`SavedModel.data_to_array`, then branches on `if body.model_name:` — a single
`predict(data, name=body.model_name)` call when the name is truthy,
`predict_all(data)` otherwise. -/
def predict_heart_disease (reg : List (String × Estimator))
    (body : PredictionRequest) : Except PyErr PredOut ⊕ List PredOut :=
  let data := data_to_array body.data
  if pyTruthyStr body.model_name then Sum.inl (predict reg data body.model_name none)
  else Sum.inr (predict_all reg data)

/-- The four row types of the relational schema
(app/database/tables.py lines 27-119). -/
inductive RowType where
  | user
  | patient
  | practitioner
  | feature
deriving DecidableEq, Repr

/-- Kind of a persistence-layer operation: insert a new row or query one. -/
inductive OpKind where
  | create
  | read
deriving DecidableEq, Repr

/-- One function of `app/database/query.py`: its qualified name, the row
type it touches, whether it creates or reads, and whether its second
parameter (after the `Session`) is a schema object (`add_user`, `add_patient`
and `add_features` take one; the `get` functions take a plain id or email). -/
structure QueryFn where
  qname : String
  row : RowType
  kind : OpKind
  takesSchema : Bool
deriving DecidableEq, Repr

/-- The complete list of functions defined in `app/database/query.py`
(lines 22-104): three on class `User`, two on class `Patient`, one on class
`Model`. Every one takes a `Session` as first argument. -/
def queryFns : List QueryFn :=
  [⟨"User.get_user", RowType.user, OpKind.read, false⟩,
   ⟨"User.get_user_by_email", RowType.user, OpKind.read, false⟩,
   ⟨"User.add_user", RowType.user, OpKind.create, true⟩,
   ⟨"Patient.get_patient", RowType.patient, OpKind.read, false⟩,
   ⟨"Patient.add_patient", RowType.patient, OpKind.create, true⟩,
   ⟨"Model.add_features", RowType.feature, OpKind.create, true⟩]

/-- Whether the persistence layer has an operation of kind `k` on row type
`r`. -/
def hasOp (r : RowType) (k : OpKind) : Bool :=
  queryFns.any (fun q => q.row = r ∧ q.kind = k)

/-- Registration payload accepted by the user routes
(`users.UserInfo` in app/schemas/users.py). -/
structure UserInfo where
  email : String
  password : String
  first_name : Option String
  last_name : Option String
  category : Option String
deriving DecidableEq, Repr

/-- A stored `user` table row (app/database/tables.py lines 27-60); the
`password_hash` column holds whatever value the insert supplied, `none`
embedding Python `None`. -/
structure UserRow where
  email : String
  password_hash : Option String
  first_name : Option String
  last_name : Option String
  category : Option String
deriving DecidableEq, Repr

/-- `get_password_hash` (app/backend/user.py lines 35-44), exactly as
written: the body evaluates `pwd_context.hash(password)` as a bare
expression statement and has no return statement, so the function returns
`None`. `hashFn` abstracts the bcrypt hash computation. -/
def get_password_hash (hashFn : String → String) (password : String) :
    Option String :=
  let _hashed := hashFn password
  none

/-- `verify_password` (app/backend/user.py lines 22-32): passlib
`CryptContext.verify(plain, hashed)` compares the secret against a hash
string; handed `None` instead of a hash it raises a `TypeError`. `verifyFn`
abstracts the bcrypt comparison. -/
def verify_password (verifyFn : String → String → Bool)
    (plain : String) (hashed : Option String) : Except PyErr Bool :=
  match hashed with
  | none => Except.error PyErr.typeError
  | some h => Except.ok (verifyFn plain h)

/-- `User.add_user` (app/database/query.py lines 40-59): hashes the password
via `get_password_hash`, builds the `tables.User` row from the schema
object, appends it to the table, and returns the inserted row. -/
def add_user (hashFn : String → String) (db : List UserRow) (user : UserInfo) :
    List UserRow × UserRow :=
  let password_hash := get_password_hash hashFn user.password
  let db_user : UserRow :=
    ⟨user.email, password_hash, user.first_name, user.last_name, user.category⟩
  (db ++ [db_user], db_user)

/-- `Data.__next__` (heart_disease/data.py lines 65-81) over a dataframe
with the default integer row labels `0..n-1`, embedded as a list whose
position `k` is the row labelled `k`. The cursor state is
`self.__current_id`; the method raises `StopIteration` when the cursor
equals `len(df)`, otherwise increments the cursor FIRST and then reads
`.loc[cursor]` with the incremented value — a label lookup that raises
`KeyError` when no row carries that label. On success it returns the row
read together with the new cursor. -/
def dataNext (df : List (List Rat × Rat)) (cur : Nat) :
    Except PyErr ((List Rat × Rat) × Nat) :=
  if cur = df.length then Except.error PyErr.stopIteration
  else
    match df[cur + 1]? with
    | some row => Except.ok (row, cur + 1)
    | none => Except.error PyErr.keyError

deriving instance DecidableEq for Except

/-! ## Theorems -/

/-- C1: the claim says `Model.load_model` succeeds whenever the path is an
existing file and raises `FileNotFoundError` only when it is not. The code
has the guard inverted (`if os.path.isfile(path): raise FileNotFoundError`),
so it raises exactly when the file exists — and when the file does not
exist, `joblib.load` raises instead, so `load_model` never succeeds at all.
Moreover `SavedModel.__init__` reads `models.MODELS`, an attribute
`heart_disease.models` does not define, so the registry constructor raises
`AttributeError` on the first file it visits and stores nothing. -/
theorem C1_load_model_guard_inverted :
    load_model demoFS "data/trained_model/Naive Bayes.joblib"
        = Except.error PyErr.fileNotFoundError
    ∧ (∀ (fs : FileSys) (path : String), ∃ e, load_model fs path = Except.error e)
    ∧ savedModel_init demoFS "data/trained_model" ["Naive Bayes.joblib"]
        = Except.error PyErr.attributeError := by
  refine ⟨rfl, ?_, rfl⟩
  intro fs path
  unfold load_model joblib_load isfile
  cases hfp : fs path with
  | none => simp [hfp]
  | some m => simp [hfp]

/-- C2: the claim says a prediction call with a registered model name
dispatches to that estimator and returns a single result. The first
statement of `SavedModel.predict` is `if not any(name, model)`, a call to
the builtin `any` with two positional arguments, which raises `TypeError`
unconditionally — every `predict` call fails before any dispatch, even with
a valid registered name. -/
theorem C2_predict_always_raises_type_error :
    (∀ (reg : List (String × Estimator)) (inputs : NpArray)
       (name : Option String) (model : Option Estimator),
        predict reg inputs name model = Except.error PyErr.typeError)
    ∧ predict [("Naive Bayes", nbEstimator)] (NpArray.numeric [1, 0])
        (some "Naive Bayes") none = Except.error PyErr.typeError := by
  exact ⟨fun _ _ _ _ => rfl, rfl⟩

/-- C3: the claim says running the training script fits the four estimators
and serializes each one. The script cannot run: importing
`heart_disease/train.py` executes `from heart_disease.models import MODELS`,
and `heart_disease.models` defines `_MODELS` and `Models` but no `MODELS`,
so the import raises `ImportError`. Even granting the mapping, the worker
`_train_and_save_model` calls `model.fit(...)` while `base.Model` defines
`train` and no `fit`, raising `AttributeError`. -/
theorem C3_training_script_cannot_run :
    run_training_script "data/heart.csv" = Except.error PyErr.importError
    ∧ from_models_import "MODELS" = Except.error PyErr.importError
    ∧ ("MODELS" ∈ modelsModuleNames) = False
    ∧ _train_and_save_model "Naive Bayes" = Except.error PyErr.attributeError := by
  refine ⟨rfl, rfl, by decide, rfl⟩

/-- C7 counterexample: the model mapping `_MODELS` of
`heart_disease/models.py` does not have five entries. -/
theorem C7_counterexample_not_five_models : (_MODELS.length = 5) = False := by
  simp [_MODELS]

/-- C7 amended: the model mapping used for training and fan-out prediction
contains exactly four entries — Support Vector Machine, K-Nearest Neighbors,
Naive Bayes, Decision Tree — so the process-pool map runs over four model
objects, not five. -/
theorem C7_models_mapping_has_four_entries :
    _MODELS.length = 4
    ∧ _MODELS.map Prod.fst =
        ["Support Vector Machine", "K-Nearest Neighbors",
         "Naive Bayes", "Decision Tree"] := by
  exact ⟨rfl, rfl⟩

/-- C8 counterexample: the persistence layer has no create and no read
operation for `Practitioner` rows, and no read operation for `Feature`
rows, so it is false that every one of the four row types has at least a
create and a read operation. -/
theorem C8_counterexample_missing_crud :
    hasOp RowType.practitioner OpKind.create = false
    ∧ hasOp RowType.practitioner OpKind.read = false
    ∧ hasOp RowType.feature OpKind.read = false
    ∧ (∀ r : RowType, hasOp r OpKind.create = true ∧ hasOp r OpKind.read = true) = False := by
  refine ⟨by decide, by decide, by decide, ?_⟩
  simp only [eq_iff_iff, iff_false]
  intro h
  exact absurd (h RowType.practitioner).1 (by decide)

/-- C8 amended: the persistence layer (`app/database/query.py`) provides
create and read operations, each taking an ORM session, for `User` and
`Patient` rows, and a create operation (taking a schema object) for
`Feature` rows; every create operation takes a schema object. It provides
no operation for `Practitioner` rows and no read operation for `Feature`
rows. -/
theorem C8_crud_functions_cover_three_row_types :
    hasOp RowType.user OpKind.create = true
    ∧ hasOp RowType.user OpKind.read = true
    ∧ hasOp RowType.patient OpKind.create = true
    ∧ hasOp RowType.patient OpKind.read = true
    ∧ hasOp RowType.feature OpKind.create = true
    ∧ hasOp RowType.practitioner OpKind.create = false
    ∧ hasOp RowType.practitioner OpKind.read = false
    ∧ hasOp RowType.feature OpKind.read = false
    ∧ (queryFns.filter (fun q => q.kind = OpKind.create)).all
        (fun q => q.takesSchema) = true := by
  decide

/-- C9: `get_password_hash` computes the hash as a bare expression and
returns `None`; therefore every row inserted by `User.add_user` carries
`password_hash = None`, and `verify_password` against such a stored hash
raises `TypeError` instead of ever returning a successful verification. -/
theorem C9_stored_password_hash_is_none :
    (∀ (hashFn : String → String) (password : String),
        get_password_hash hashFn password = none)
    ∧ (∀ (hashFn : String → String) (db : List UserRow) (user : UserInfo),
        ((add_user hashFn db user).2).password_hash = none)
    ∧ (∀ (verifyFn : String → String → Bool) (hashFn : String → String)
         (db : List UserRow) (user : UserInfo) (plain : String),
        verify_password verifyFn plain ((add_user hashFn db user).2).password_hash
          = Except.error PyErr.typeError) := by
  exact ⟨fun _ _ => rfl, fun _ _ _ => rfl, fun _ _ _ _ _ => rfl⟩

/-- Helper: the gather loop keeps exactly the successful outcomes, with
multiplicity. -/
theorem gatherResults_count (outcomes : List (Except PyErr PredOut)) (r : PredOut) :
    (gatherResults outcomes).count r = outcomes.count (Except.ok r) := by
  induction outcomes with
  | nil => rfl
  | cons o rest ih =>
    cases o with
    | ok v =>
      by_cases h : v = r
      · subst h
        simp [gatherResults, List.count_cons, ih]
      · simp [gatherResults, List.count_cons, ih, h]
    | error e =>
      simp [gatherResults, List.count_cons, ih]

/-- Helper: every element the gather loop returns came from a successful
outcome. -/
theorem gatherResults_mem (outcomes : List (Except PyErr PredOut)) (r : PredOut) :
    r ∈ gatherResults outcomes ↔ Except.ok r ∈ outcomes := by
  induction outcomes with
  | nil => simp [gatherResults]
  | cons o rest ih =>
    cases o with
    | ok v => simp [gatherResults, ih]
    | error e =>
      simp [gatherResults, ih]

/-- C4: in the fan-out over all registered models, a future whose prediction
raised is logged and skipped (the loop continues and the call returns
normally), and the returned list holds exactly the results of the futures
that succeeded — as membership and with multiplicity. -/
theorem C4_predict_all_returns_exactly_successes :
    (∀ (outcomes : List (Except PyErr PredOut)) (e : PyErr),
        gatherResults (Except.error e :: outcomes) = gatherResults outcomes)
    ∧ (∀ (outcomes : List (Except PyErr PredOut)) (r : PredOut),
        (gatherResults outcomes).count r = outcomes.count (Except.ok r)
        ∧ (r ∈ gatherResults outcomes ↔ Except.ok r ∈ outcomes))
    ∧ (∀ (reg : List (String × Estimator)) (inputs : NpArray) (r : PredOut),
        (predict_all reg inputs).count r
          = (futureOutcomes reg inputs).count (Except.ok r)) := by
  refine ⟨fun _ _ => rfl, fun o r => ⟨gatherResults_count o r, gatherResults_mem o r⟩,
    fun reg inputs r => gatherResults_count _ r⟩

/-- C10: iterating a `Data` object over a dataframe with the default integer
row labels never yields the row labelled 0: each successful `__next__` call
increments the cursor first and reads the row labelled `cursor + 1`, the
call made at cursor `k` (for `k + 1 < n`) yields the row labelled `k + 1`,
and the n-th call — made at cursor `n - 1` on a nonempty dataframe — reads
label `n`, raising `KeyError` rather than `StopIteration`. -/
theorem C10_data_iteration_skips_first_row (df : List (List Rat × Rat)) :
    (∀ cur row cur2, dataNext df cur = Except.ok (row, cur2) →
        cur2 = cur + 1 ∧ df[cur + 1]? = some row)
    ∧ (∀ k row, k ≠ df.length → df[k + 1]? = some row →
        dataNext df k = Except.ok (row, k + 1))
    ∧ (1 ≤ df.length →
        dataNext df (df.length - 1) = Except.error PyErr.keyError) := by
  refine ⟨?_, ?_, ?_⟩
  · intro cur row cur2 h
    by_cases hc : cur = df.length
    · simp [dataNext, hc] at h
    · cases hg : df[cur + 1]? with
      | none => simp [dataNext, hc, hg] at h
      | some row2 =>
        simp [dataNext, hc, hg] at h
        exact ⟨h.2.symm, by simp [hg, h.1]⟩
  · intro k row hk hg
    simp [dataNext, hk, hg]
  · intro h1
    have hne : df.length - 1 ≠ df.length := by omega
    have hg : df[df.length - 1 + 1]? = (none : Option (List Rat × Rat)) := by
      apply List.getElem?_eq_none
      omega
    simp [dataNext, hne, hg]

/-- C10 witness: on a three-row dataframe the first call yields the row
labelled 1 (skipping row 0), and the third call raises `KeyError`. -/
theorem C10_data_iteration_skips_first_row_witness :
    dataNext [([1], 0), ([2], 1), ([3], 0)] 0 = Except.ok ((([2] : List Rat), (1 : Rat)), 1)
    ∧ dataNext [([1], 0), ([2], 1), ([3], 0)] 2 = Except.error PyErr.keyError :=
  ⟨(C10_data_iteration_skips_first_row _).2.1 0 ([2], 1) (by decide) rfl,
   (C10_data_iteration_skips_first_row _).2.2 (by decide)⟩

/-- C6: the claim says the routing layer converts the 13 body features into
a numeric array in declared feature order and passes it to the registry.
`SavedModel.data_to_array` computes `np.array(data.dict().values())`: the
argument is the `dict_values` view, which is not a sequence, so numpy
produces a zero-dimensional object array wrapping the view — never a
13-element numeric array — and that object array is what the route hands to
`predict`/`predict_all`. -/
theorem C6_data_to_array_is_object_scalar :
    (∀ f : Features,
        data_to_array f = NpArray.objectScalar ((featuresDict f).map Prod.snd))
    ∧ (∀ (f : Features) (xs : List Rat), data_to_array f ≠ NpArray.numeric xs)
    ∧ data_to_array ⟨63, 1, 3, 145, 233, 1, 0, 150, 0, 23/10, 0, 0, 1⟩
        = NpArray.objectScalar [63, 1, 3, 145, 233, 1, 0, 150, 0, 23/10, 0, 0, 1]
    ∧ (∀ (reg : List (String × Estimator)) (body : PredictionRequest),
        predict_heart_disease reg body =
          if pyTruthyStr body.model_name then
            Sum.inl (predict reg (data_to_array body.data) body.model_name none)
          else Sum.inr (predict_all reg (data_to_array body.data))) := by
  refine ⟨fun f => rfl, ?_, by norm_num [data_to_array, np_array_ofDictValues, featuresDict],
    fun reg body => rfl⟩
  intro f xs h
  exact NpArray.noConfusion h

/-- Helper: characterization of a successful `ge`-only field check. -/
theorem checkGe_eq_some (v : Option Int) (lo y : Int) :
    checkGe v lo = some y ↔ v = some y ∧ lo ≤ y := by
  cases v with
  | none => simp [checkGe]
  | some x =>
    simp only [checkGe]
    by_cases h : lo ≤ x
    · rw [if_pos h]
      constructor
      · intro hxy
        cases hxy
        exact ⟨rfl, h⟩
      · rintro ⟨hxy, _⟩
        cases hxy
        rfl
    · rw [if_neg h]
      constructor
      · intro hcon
        exact Option.noConfusion hcon
      · rintro ⟨hxy, hy⟩
        cases hxy
        exact absurd hy h

/-- Helper: characterization of a successful `ge`/`le` field check. -/
theorem checkRange_eq_some (v : Option Int) (lo hi y : Int) :
    checkRange v lo hi = some y ↔ v = some y ∧ lo ≤ y ∧ y ≤ hi := by
  cases v with
  | none => simp [checkRange]
  | some x =>
    simp only [checkRange]
    by_cases h : lo ≤ x ∧ x ≤ hi
    · rw [if_pos h]
      constructor
      · intro hxy
        cases hxy
        exact ⟨rfl, h⟩
      · rintro ⟨hxy, _⟩
        cases hxy
        rfl
    · rw [if_neg h]
      constructor
      · intro hcon
        exact Option.noConfusion hcon
      · rintro ⟨hxy, hy⟩
        cases hxy
        exact absurd hy h

/-- Helper: characterization of a successful `ge`-only float field check. -/
theorem checkGeQ_eq_some (v : Option Rat) (lo y : Rat) :
    checkGeQ v lo = some y ↔ v = some y ∧ lo ≤ y := by
  cases v with
  | none => simp [checkGeQ]
  | some x =>
    simp only [checkGeQ]
    by_cases h : lo ≤ x
    · rw [if_pos h]
      constructor
      · intro hxy
        cases hxy
        exact ⟨rfl, h⟩
      · rintro ⟨hxy, _⟩
        cases hxy
        rfl
    · rw [if_neg h]
      constructor
      · intro hcon
        exact Option.noConfusion hcon
      · rintro ⟨hxy, hy⟩
        cases hxy
        exact absurd hy h

/-- Helper: a `Features` value validates out of a JSON body exactly when
every field of the body is present, within bounds, and equal to the
corresponding field of the value. -/
theorem validateFeatures_eq_some (d : FeaturesJson) (f : Features) :
    validateFeatures d = some f ↔
      d.age = some f.age ∧ 0 ≤ f.age
      ∧ d.sex = some f.sex ∧ 0 ≤ f.sex ∧ f.sex ≤ 1
      ∧ d.cp = some f.cp ∧ 0 ≤ f.cp ∧ f.cp ≤ 3
      ∧ d.trestbps = some f.trestbps ∧ 0 ≤ f.trestbps
      ∧ d.chol = some f.chol ∧ 0 ≤ f.chol
      ∧ d.fbs = some f.fbs ∧ 0 ≤ f.fbs ∧ f.fbs ≤ 1
      ∧ d.restecg = some f.restecg ∧ 0 ≤ f.restecg ∧ f.restecg ≤ 2
      ∧ d.thalach = some f.thalach ∧ 0 ≤ f.thalach
      ∧ d.exang = some f.exang ∧ 0 ≤ f.exang ∧ f.exang ≤ 1
      ∧ d.oldpeak = some f.oldpeak ∧ 0 ≤ f.oldpeak
      ∧ d.slope = some f.slope ∧ 0 ≤ f.slope ∧ f.slope ≤ 2
      ∧ d.ca = some f.ca ∧ 0 ≤ f.ca ∧ f.ca ≤ 4
      ∧ d.thal = some f.thal ∧ 0 ≤ f.thal ∧ f.thal ≤ 3 := by
  simp only [validateFeatures, Option.bind_eq_some, checkGe_eq_some,
    checkRange_eq_some, checkGeQ_eq_some, Option.some.injEq]
  constructor
  · rintro ⟨a, ⟨ha, ha0⟩, s, ⟨hs, hs0, hs1⟩, c, ⟨hc, hc0, hc3⟩, t, ⟨ht, ht0⟩,
      ch, ⟨hch, hch0⟩, fb, ⟨hfb, hfb0, hfb1⟩, re, ⟨hre, hre0, hre2⟩,
      th, ⟨hth, hth0⟩, ex, ⟨hex, hex0, hex1⟩, op, ⟨hop, hop0⟩,
      sl, ⟨hsl, hsl0, hsl2⟩, cA, ⟨hca, hca0, hca4⟩, tl, ⟨htl, htl0, htl3⟩, heq⟩
    cases heq
    exact ⟨ha, ha0, hs, hs0, hs1, hc, hc0, hc3, ht, ht0, hch, hch0,
      hfb, hfb0, hfb1, hre, hre0, hre2, hth, hth0, hex, hex0, hex1,
      hop, hop0, hsl, hsl0, hsl2, hca, hca0, hca4, htl, htl0, htl3⟩
  · rintro ⟨ha, ha0, hs, hs0, hs1, hc, hc0, hc3, ht, ht0, hch, hch0,
      hfb, hfb0, hfb1, hre, hre0, hre2, hth, hth0, hex, hex0, hex1,
      hop, hop0, hsl, hsl0, hsl2, hca, hca0, hca4, htl, htl0, htl3⟩
    exact ⟨f.age, ⟨ha, ha0⟩, f.sex, ⟨hs, hs0, hs1⟩, f.cp, ⟨hc, hc0, hc3⟩,
      f.trestbps, ⟨ht, ht0⟩, f.chol, ⟨hch, hch0⟩, f.fbs, ⟨hfb, hfb0, hfb1⟩,
      f.restecg, ⟨hre, hre0, hre2⟩, f.thalach, ⟨hth, hth0⟩,
      f.exang, ⟨hex, hex0, hex1⟩, f.oldpeak, ⟨hop, hop0⟩,
      f.slope, ⟨hsl, hsl0, hsl2⟩, f.ca, ⟨hca, hca0, hca4⟩,
      f.thal, ⟨htl, htl0, htl3⟩, rfl⟩

/-- Helper: a request body with a present `data` member validates exactly
when the features validate; the model name plays no part. -/
theorem validateRequest_isSome (d : FeaturesJson) (mn : Option String) :
    (validateRequest ⟨some d, mn⟩).isSome = (validateFeatures d).isSome := by
  cases h : validateFeatures d <;> simp [validateRequest, h]

/-- C5: the request schema accepts a body exactly when all 13 clinical
features are present and satisfy their declared bounds (age ≥ 0, sex and fbs
and exang in 0..1, cp and thal in 0..3, restecg and slope in 0..2, ca in
0..4, trestbps, chol, thalach, oldpeak ≥ 0), with the model name optional
and unconstrained (any `mn`, including `none`, validates alongside valid
features), and a body whose `data` member is missing is rejected. A body
missing any one of the 13 features is rejected by the left-to-right
direction of the equivalence. -/
theorem C5_schema_accepts_exactly_13_bounded_features (d : FeaturesJson) (mn : Option String) :
    ((validateRequest ⟨some d, mn⟩).isSome = true ↔
      ((∃ x, d.age = some x ∧ 0 ≤ x)
       ∧ (∃ x, d.sex = some x ∧ 0 ≤ x ∧ x ≤ 1)
       ∧ (∃ x, d.cp = some x ∧ 0 ≤ x ∧ x ≤ 3)
       ∧ (∃ x, d.trestbps = some x ∧ 0 ≤ x)
       ∧ (∃ x, d.chol = some x ∧ 0 ≤ x)
       ∧ (∃ x, d.fbs = some x ∧ 0 ≤ x ∧ x ≤ 1)
       ∧ (∃ x, d.restecg = some x ∧ 0 ≤ x ∧ x ≤ 2)
       ∧ (∃ x, d.thalach = some x ∧ 0 ≤ x)
       ∧ (∃ x, d.exang = some x ∧ 0 ≤ x ∧ x ≤ 1)
       ∧ (∃ q, d.oldpeak = some q ∧ 0 ≤ q)
       ∧ (∃ x, d.slope = some x ∧ 0 ≤ x ∧ x ≤ 2)
       ∧ (∃ x, d.ca = some x ∧ 0 ≤ x ∧ x ≤ 4)
       ∧ (∃ x, d.thal = some x ∧ 0 ≤ x ∧ x ≤ 3)))
    ∧ validateRequest ⟨none, mn⟩ = none := by
  refine ⟨?_, rfl⟩
  rw [validateRequest_isSome, Option.isSome_iff_exists]
  constructor
  · rintro ⟨f, hf⟩
    rw [validateFeatures_eq_some] at hf
    obtain ⟨ha, ha0, hs, hs0, hs1, hc, hc0, hc3, ht, ht0, hch, hch0,
      hfb, hfb0, hfb1, hre, hre0, hre2, hth, hth0, hex, hex0, hex1,
      hop, hop0, hsl, hsl0, hsl2, hca, hca0, hca4, htl, htl0, htl3⟩ := hf
    exact ⟨⟨f.age, ha, ha0⟩, ⟨f.sex, hs, hs0, hs1⟩, ⟨f.cp, hc, hc0, hc3⟩,
      ⟨f.trestbps, ht, ht0⟩, ⟨f.chol, hch, hch0⟩, ⟨f.fbs, hfb, hfb0, hfb1⟩,
      ⟨f.restecg, hre, hre0, hre2⟩, ⟨f.thalach, hth, hth0⟩,
      ⟨f.exang, hex, hex0, hex1⟩, ⟨f.oldpeak, hop, hop0⟩,
      ⟨f.slope, hsl, hsl0, hsl2⟩, ⟨f.ca, hca, hca0, hca4⟩,
      ⟨f.thal, htl, htl0, htl3⟩⟩
  · rintro ⟨⟨a, ha, ha0⟩, ⟨s, hs, hs0, hs1⟩, ⟨c, hc, hc0, hc3⟩,
      ⟨t, ht, ht0⟩, ⟨ch, hch, hch0⟩, ⟨fb, hfb, hfb0, hfb1⟩,
      ⟨re, hre, hre0, hre2⟩, ⟨th, hth, hth0⟩, ⟨ex, hex, hex0, hex1⟩,
      ⟨op, hop, hop0⟩, ⟨sl, hsl, hsl0, hsl2⟩, ⟨cA, hca, hca0, hca4⟩,
      ⟨tl, htl, htl0, htl3⟩⟩
    refine ⟨⟨a, s, c, t, ch, fb, re, th, ex, op, sl, cA, tl⟩, ?_⟩
    rw [validateFeatures_eq_some]
    exact ⟨ha, ha0, hs, hs0, hs1, hc, hc0, hc3, ht, ht0, hch, hch0,
      hfb, hfb0, hfb1, hre, hre0, hre2, hth, hth0, hex, hex0, hex1,
      hop, hop0, hsl, hsl0, hsl2, hca, hca0, hca4, htl, htl0, htl3⟩

end HeartDisease
